import Mathlib

/-!
# Verification of the poinz client event reducer

Shallow embedding of the backend-event reducer of the poinz planning-poker
client (source file containing `eventReducer`, `updateActionLog` and the
`eventActionHandlers` dispatch table, together with the `EVENT_ACTION_TYPES`
constants).

Modelling conventions, used consistently below:

* JavaScript objects whose field set is statically known (the room state, a
  user, a story, an event, a payload) are Lean structures; a field holding
  `undefined` is `none`.  JavaScript objects used as dynamic string-keyed
  maps (`state.users`, `state.stories`, `state.estimations` and the
  per-story estimation maps) are association lists `Strmap V`; a key bound
  to `none` models a key that is *present* but bound to `undefined` (as
  produced by a spread such as `{...m, [k]: undefined}`), while a missing
  key models an absent key.  Property reads flatten the two (`jsGet`),
  exactly as a JavaScript property read does; `delete` removes the key.
* JavaScript truthiness on the values the reducer tests is modelled by
  `strTruthy` / `boolTruthy` / `intTruthy` (empty string, `undefined`,
  `false` and `0` are falsy).
* String interpolation of a possibly-`undefined` value renders
  `"undefined"` (`jsStr`), as a JS template literal does; a computed object
  key from a possibly-`undefined` value is the string `"undefined"`
  (`jsKey`).
* Estimation and consensus values are modelled as `Int`.
* Per the spec (§6, §7) events always carry `name`, `roomId`, `userId` and a
  payload object, and payload shapes respect the transport contract; a
  property access that would throw on a contract-violating payload (for
  example a joined user missing from the server-sent user list) is modelled
  by a total default.  The external preference store (`clientSettingsStore`)
  and the observability sink (`log.warn` / `log.error`) are write-only
  collaborators with no influence on the returned state and are not
  modelled.
* The log entry timestamp (`formatTime(Date.now())`) and unique id
  (`uuid()`) are impure inputs; the reducer is parameterised over them
  (`tstamp`, `logId`).
-/

namespace Poinz

/-- A JavaScript object used as a string-keyed map.  A pair `(k, none)`
models a key bound to `undefined`; a missing key models an absent key. -/
abbrev Strmap (V : Type) : Type := List (String × Option V)

/-- Property read `m[k]`: `undefined` both for an absent key and for a key
bound to `undefined`. -/
def jsGet {V : Type} (m : Strmap V) (k : String) : Option V :=
  (List.lookup k m).bind id

/-- Key presence (`k in m`, `Object.keys(m).includes(k)`). -/
def jsHasKey {V : Type} (m : Strmap V) (k : String) : Bool :=
  (List.lookup k m).isSome

/-- Spread-update `{...m, [k]: v}`: replaces the binding of an existing key
in place, appends a new key at the end (JS insertion-order semantics). -/
def jsSet {V : Type} : Strmap V → String → Option V → Strmap V
  | [], k, v => [(k, v)]
  | p :: t, k, v => if p.1 = k then (k, v) :: t else p :: jsSet t k v

/-- `delete m[k]` on a copy: removes the key. -/
def jsDelete {V : Type} (m : Strmap V) (k : String) : Strmap V :=
  m.filter (fun p => p.1 != k)

/-- JS truthiness of a string-or-undefined value (`undefined` and `""` are
falsy). -/
def strTruthy : Option String → Bool
  | none => false
  | some s => s != ""

/-- JS truthiness of a boolean-or-undefined value (`!!x`). -/
def boolTruthy (o : Option Bool) : Bool := o.getD false

/-- JS truthiness of a number-or-undefined value (`undefined` and `0` are
falsy). -/
def intTruthy : Option Int → Bool
  | none => false
  | some v => v != 0

/-- Template-literal rendering of a string-or-undefined value. -/
def jsStr : Option String → String
  | none => "undefined"
  | some s => s

/-- A computed object key from a string-or-undefined value (`obj[undefined]`
accesses the key `"undefined"`). -/
def jsKey : Option String → String := jsStr

/-- Template-literal rendering of a number-or-undefined value. -/
def intStr : Option Int → String
  | none => "undefined"
  | some v => toString v

/-- Does `pat` occur at the start of `l`? (Helper for `strIncludes`.) -/
def listStartsWith : List Char → List Char → Bool
  | [], _ => true
  | _ :: _, [] => false
  | a :: as, b :: bs => a == b && listStartsWith as bs

/-- Does `pat` occur as a contiguous subsequence of `l`? -/
def listContainsSeq (pat : List Char) : List Char → Bool
  | [] => pat.isEmpty
  | b :: bs => listStartsWith pat (b :: bs) || listContainsSeq pat bs

/-- `s.includes(sub)` of JavaScript. -/
def strIncludes (s sub : String) : Bool := listContainsSeq sub.data s.data

/-- A participant, as stored in `state.users` and as sent in the server's
user list on join. -/
structure User where
  id : Option String := none
  username : Option String := none
  email : Option String := none
  emailHash : Option String := none
  avatar : Option Nat := none
  excluded : Option Bool := none
  disconnected : Option Bool := none
  deriving DecidableEq

/-- A story, as stored in `state.stories`. -/
structure Story where
  id : Option String := none
  title : Option String := none
  description : Option String := none
  createdAt : Option Nat := none
  trashed : Option Bool := none
  revealed : Option Bool := none
  consensus : Option Int := none
  editMode : Option Bool := none
  deriving DecidableEq

/-- One entry of the room's card configuration. -/
structure CardItem where
  label : String
  value : Int
  deriving DecidableEq

/-- The `payload.command` object of a `commandRejected` event. -/
structure CommandInfo where
  name : String
  roomId : String
  deriving DecidableEq

/-- A story as sent in the server's story list on join (carries the initial
estimations consumed by the estimation indexer). -/
structure StoryPayload where
  id : String
  title : Option String := none
  description : Option String := none
  createdAt : Option Nat := none
  trashed : Option Bool := none
  revealed : Option Bool := none
  consensus : Option Int := none
  estimations : Strmap Int := []
  deriving DecidableEq

/-- An event payload.  One structure with all-optional fields models the
single dynamic `event.payload` object; each handler reads only the fields
its event kind carries. -/
structure Payload where
  reason : Option String := none
  command : Option CommandInfo := none
  id : Option String := none
  userId : Option String := none
  storyId : Option String := none
  value : Option Int := none
  title : Option String := none
  description : Option String := none
  createdAt : Option Nat := none
  manually : Option Bool := none
  message : Option String := none
  token : Option String := none
  username : Option String := none
  email : Option String := none
  emailHash : Option String := none
  avatar : Option Nat := none
  cardConfig : Option (List CardItem) := none
  autoReveal : Option Bool := none
  passwordProtected : Option Bool := none
  selectedStory : Option String := none
  users : List User := []
  stories : List StoryPayload := []
  deriving DecidableEq

/-- One entry of the action log.  `isError` is `none` when the JS code never
assigned the key (string log messages) and `some b` when it did (structured
messages). -/
structure LogEntry where
  tstamp : String
  logId : String
  message : String
  isError : Option Bool := none
  deriving DecidableEq

/-- The client room state folded by the reducer. -/
structure RoomState where
  roomId : Option String := none
  userId : Option String := none
  users : Strmap User := []
  stories : Strmap Story := []
  estimations : Strmap (Strmap Int) := []
  selectedStory : Option String := none
  highlightedStory : Option String := none
  cardConfig : Option (List CardItem) := none
  autoReveal : Option Bool := none
  passwordProtected : Option Bool := none
  applause : Option Bool := none
  actionLog : List LogEntry := []
  pendingJoinCommandId : Option String := none
  authorizationFailed : Option String := none
  unseenError : Option Bool := none
  userToken : Option String := none
  presetUsername : Option String := none
  presetEmail : Option String := none
  presetAvatar : Option Nat := none
  deriving DecidableEq

/-- A backend event as delivered by the transport:
`{name, roomId, userId, correlationId?, payload}`. -/
structure Event where
  name : String
  roomId : String
  userId : String
  correlationId : Option String := none
  payload : Payload := {}
  deriving DecidableEq

/-- A dispatched action `{type, event}`. -/
structure Action where
  type : String
  event : Event
  deriving DecidableEq

/-- Modelled from the spec: `initialState` is imported from
`../store/initialState`, which is not part of the given sources.  Spec §3:
"RoomState is created with all fields in an initial empty configuration
before any event". -/
def initialState : RoomState := {}

/-- Modelled from the spec: `indexUsers` is imported from
`./roomStateMapper`, which is not part of the given sources.  Spec §2
Entity Indexers: "pure projections that convert server-supplied list
payloads (for users, stories, initial estimations) into keyed mappings by
identifier". -/
def indexUsers (us : List User) : Strmap User :=
  us.foldl (fun m u => jsSet m (jsKey u.id) (some u)) []

/-- The story record the story indexer stores for one server-sent story. -/
def storyOfPayload (s : StoryPayload) : Story :=
  { id := some s.id, title := s.title, description := s.description,
    createdAt := s.createdAt, trashed := s.trashed, revealed := s.revealed,
    consensus := s.consensus, editMode := none }

/-- Modelled from the spec: `indexStories` (see `indexUsers`). -/
def indexStories (ss : List StoryPayload) : Strmap Story :=
  ss.foldl (fun m s => jsSet m s.id (some (storyOfPayload s))) []

/-- Modelled from the spec: `indexEstimations` (see `indexUsers`); derives
the per-story estimation mappings from the server-sent story list. -/
def indexEstimations (ss : List StoryPayload) : Strmap (Strmap Int) :=
  ss.foldl (fun m s => jsSet m s.id (some s.estimations)) []

/-- Modelled from the spec: `getCardConfigForValue` is imported from a file
that is not part of the given sources.  Spec §6 card-config lookup
collaborator: "given a room's card configuration and a consensus value,
returns the matching display label or an absence indicator; used only for
log-message formatting". -/
def getCardConfigForValue (cfg : Option (List CardItem)) (v : Option Int) : Option CardItem :=
  (cfg.getD []).find? (fun c => some c.value == v)

/-- The result of evaluating a handler's log descriptor: `undefined`, a
plain string, or a structured `{message, isError}` object. -/
inductive LogResult where
  | undef : LogResult
  | str : String → LogResult
  | obj : String → Bool → LogResult

/-- The signature of a log-producing function in the dispatch table:
`(username, eventPayload, oldState, newState, event)`. -/
abbrev LogFn : Type := String → Payload → RoomState → RoomState → Event → LogResult

/-- A handler's `log` field: a literal string or a function (the dispatch
table of this repository only uses functions; `updateActionLog` supports
both). -/
inductive LogObj where
  | strLit : String → LogObj
  | fnLog : LogFn → LogObj

/-- One entry of the dispatch table: a state-transition function and an
optional log descriptor.  `fn` returning `none` models a transition
function returning a falsy value (`undefined`/`null`), which the reducer
replaces by the unchanged input state (`... || state`). -/
structure Handler where
  fn : RoomState → Payload → Event → Option RoomState
  log : Option LogObj := none

/-- `matchingUser ? matchingUser.username || '' : ''` of `updateActionLog`:
the acting username resolved from the post-transition state. -/
def logUsername (modifiedState : RoomState) (event : Event) : String :=
  match jsGet modifiedState.users event.userId with
  | some u => (u.username).getD ""
  | none => ""

/-- Evaluate a log descriptor to a `LogResult` (`typeof logObject ===
'function'` dispatch of `updateActionLog`). -/
def evalLogObj (lo : LogObj) (username : String) (p : Payload)
    (oldState newState : RoomState) (e : Event) : LogResult :=
  match lo with
  | LogObj.strLit s => LogResult.str s
  | LogObj.fnLog f => f username p oldState newState e

/-- The tail of `updateActionLog`: drop a falsy message (`undefined` or the
empty string), otherwise prepend a fresh log entry to `actionLog`.  A
structured message is always truthy, even with an empty message text. -/
def appendLog (m : RoomState) (res : LogResult) (tstamp logId : String) : RoomState :=
  match res with
  | LogResult.undef => m
  | LogResult.str s =>
    if s = "" then m
    else { m with actionLog := ⟨tstamp, logId, s, none⟩ :: m.actionLog }
  | LogResult.obj msg e =>
    { m with actionLog := ⟨tstamp, logId, msg, some e⟩ :: m.actionLog }

/-- `updateActionLog(logObject, oldState, modifiedState, event)`: adds a log
message for a backend event to the (already transitioned) state. -/
def updateActionLog (logObject : Option LogObj) (oldState modifiedState : RoomState)
    (event : Event) (tstamp logId : String) : RoomState :=
  match logObject with
  | none => modifiedState
  | some lo =>
    appendLog modifiedState
      (evalLogObj lo (logUsername modifiedState event) event.payload oldState modifiedState event)
      tstamp logId

/-- `username || 'New user'` style fallback on a resolved username. -/
def orNewUser (s : String) : String := if s = "" then "New user" else s

/-- `m[k].username || d`: the username of a looked-up user with a fallback
for a falsy username.  A failed lookup (which would throw in JS on a
contract-violating payload) also yields the fallback. -/
def usernameOr (u : Option User) (d : String) : String :=
  match u with
  | none => d
  | some user =>
    match user.username with
    | none => d
    | some n => if n = "" then d else n

/-- `${m[k].username}`: raw interpolation of a looked-up user's username. -/
def rawUsername (u : Option User) : String := jsStr (u.bind User.username)

/-- Handler for `roomCreated`: no state change, log `Room "<id>" created`. -/
def roomCreatedHandler : Handler where
  fn := fun state _ _ => some state
  log := some (LogObj.fnLog (fun _ payload _ _ _ =>
    LogResult.str ("Room \"" ++ jsStr payload.id ++ "\" created")))

/-- Handler for `joinedRoom`.  Own join (pending join command id truthy and
equal to the event's correlation id): adopt the full server snapshot and
clear the pending/authorization markers.  Someone else: replace only the
users mapping.  (The `clientSettingsStore.setPresetUserId` write is an
external side effect with no influence on the returned state.) -/
def joinedRoomHandler : Handler where
  fn := fun state payload event =>
    if strTruthy state.pendingJoinCommandId ∧ state.pendingJoinCommandId = event.correlationId then
      some { state with
        roomId := some event.roomId
        userId := some event.userId
        selectedStory := payload.selectedStory
        highlightedStory := payload.selectedStory
        users := indexUsers payload.users
        stories := indexStories payload.stories
        estimations := indexEstimations payload.stories
        pendingJoinCommandId := none
        authorizationFailed := none
        cardConfig := payload.cardConfig
        autoReveal := payload.autoReveal
        passwordProtected := some (boolTruthy payload.passwordProtected) }
    else
      some { state with users := indexUsers payload.users }
  log := some (LogObj.fnLog (fun _ _ oldState newState event =>
    if strTruthy oldState.userId = false then
      LogResult.str ("You joined room \"" ++ jsStr newState.roomId ++ "\"")
    else
      LogResult.str (usernameOr (jsGet newState.users event.userId) "New user" ++ " joined")))

/-- Handler for `leftRoom`: own user (state `userId` equal to the event's
`userId`) resets to the initial state, someone else is removed from
`users`. -/
def leftRoomHandler : Handler where
  fn := fun state _ event =>
    if state.userId = some event.userId then
      some initialState
    else
      some { state with users := jsDelete state.users event.userId }
  log := some (LogObj.fnLog (fun _ _ oldState _ event =>
    LogResult.str (usernameOr (jsGet oldState.users event.userId) "New user" ++ " left the room")))

/-- Handler for `kicked`: the subject id comes from the payload (the kicked
user), not from the event envelope (the kicking user). -/
def kickedHandler : Handler where
  fn := fun state payload _ =>
    if payload.userId = state.userId then
      some initialState
    else
      some { state with users := jsDelete state.users (jsKey payload.userId) }
  log := some (LogObj.fnLog (fun _ payload oldState _ event =>
    LogResult.str (usernameOr (jsGet oldState.users (jsKey payload.userId)) "New user"
      ++ " was kicked from the room by "
      ++ rawUsername (jsGet oldState.users event.userId))))

/-- Handler for `connectionLost`: mark the subject user disconnected; no-op
when the subject is unknown. -/
def connectionLostHandler : Handler where
  fn := fun state _ event =>
    match jsGet state.users event.userId with
    | none => some state
    | some u =>
      some { state with
        users := jsSet state.users event.userId (some { u with disconnected := some true }) }
  log := some (LogObj.fnLog (fun username _ _ _ _ =>
    LogResult.str (orNewUser username ++ " lost the connection")))

/-- Handler for `storyAdded`. -/
def storyAddedHandler : Handler where
  fn := fun state payload _ =>
    some { state with
      stories := jsSet state.stories (jsKey payload.storyId)
        (some { id := payload.storyId, title := payload.title,
                description := payload.description, createdAt := payload.createdAt }) }
  log := some (LogObj.fnLog (fun username payload _ _ _ =>
    LogResult.str (username ++ " added new story \"" ++ jsStr payload.title ++ "\"")))

/-- Handler for `storyChanged`. -/
def storyChangedHandler : Handler where
  fn := fun state payload _ =>
    some { state with
      stories := jsSet state.stories (jsKey payload.storyId)
        (some { (jsGet state.stories (jsKey payload.storyId)).getD {} with
                title := payload.title, description := payload.description,
                editMode := some false }) }
  log := some (LogObj.fnLog (fun username payload _ _ _ =>
    LogResult.str (username ++ " changed story \"" ++ jsStr payload.title ++ "\"")))

/-- Handler for `storyTrashed`: flags the story and clears the highlight if
the trashed story was the highlighted one. -/
def storyTrashedHandler : Handler where
  fn := fun state payload _ =>
    some { state with
      highlightedStory :=
        if state.highlightedStory = payload.storyId then none else state.highlightedStory
      stories := jsSet state.stories (jsKey payload.storyId)
        (some { (jsGet state.stories (jsKey payload.storyId)).getD {} with trashed := some true }) }
  log := some (LogObj.fnLog (fun username payload oldState _ _ =>
    LogResult.str (username ++ " moved story \""
      ++ jsStr (((jsGet oldState.stories (jsKey payload.storyId)).getD {}).title)
      ++ "\" to trash")))

/-- Handler for `storyRestored`. -/
def storyRestoredHandler : Handler where
  fn := fun state payload _ =>
    some { state with
      stories := jsSet state.stories (jsKey payload.storyId)
        (some { (jsGet state.stories (jsKey payload.storyId)).getD {} with trashed := some false }) }
  log := some (LogObj.fnLog (fun username payload oldState _ _ =>
    LogResult.str (username ++ " restored story \""
      ++ jsStr (((jsGet oldState.stories (jsKey payload.storyId)).getD {}).title)
      ++ "\" from trash")))

/-- Handler for `storyDeleted`: removes the entry; the log reads title and
consensus from the old state. -/
def storyDeletedHandler : Handler where
  fn := fun state payload _ =>
    some { state with stories := jsDelete state.stories (jsKey payload.storyId) }
  log := some (LogObj.fnLog (fun username payload oldState _ _ =>
    let st := (jsGet oldState.stories (jsKey payload.storyId)).getD {}
    let logline := username ++ " deleted story \"" ++ jsStr st.title ++ "\""
    if intTruthy st.consensus then
      LogResult.str (logline ++ ". It was estimated " ++ intStr st.consensus)
    else
      LogResult.str logline))

/-- Handler for `storySelected`: sets the selected story, sets the
highlighted story only if previously falsy, clears the applause. -/
def storySelectedHandler : Handler where
  fn := fun state payload _ =>
    some { state with
      selectedStory := payload.storyId
      highlightedStory :=
        if strTruthy state.highlightedStory then state.highlightedStory else payload.storyId
      applause := some false }
  log := some (LogObj.fnLog (fun username payload _ newState _ =>
    if strTruthy payload.storyId then
      LogResult.str (username ++ " selected current story \""
        ++ jsStr (((jsGet newState.stories (jsKey payload.storyId)).getD {}).title) ++ "\"")
    else
      LogResult.str "Currently no story is selected"))

/-- Handler for `importFailed`: no state change, log-only. -/
def importFailedHandler : Handler where
  fn := fun state _ _ => some state
  log := some (LogObj.fnLog (fun _ payload _ _ _ =>
    LogResult.str ("CSV import failed. " ++ jsStr payload.message)))

/-- Handler for `usernameSet`: updates the subject's username; for the own
user also mirrors it into `presetUsername` (the preference-store write is
an external side effect). -/
def usernameSetHandler : Handler where
  fn := fun state payload event =>
    let isOwnUser := state.userId = some event.userId
    some { state with
      users := jsSet state.users event.userId
        (some { (jsGet state.users event.userId).getD {} with username := payload.username })
      presetUsername := if isOwnUser then payload.username else state.presetUsername }
  log := some (LogObj.fnLog (fun _ payload oldState _ event =>
    let oldUsername := ((jsGet oldState.users event.userId).getD {}).username
    let newUsername := payload.username
    if strTruthy oldUsername ∧ oldUsername ≠ newUsername then
      LogResult.str ("\"" ++ jsStr oldUsername ++ "\" is now called \"" ++ jsStr newUsername ++ "\"")
    else if strTruthy oldUsername = false ∧ strTruthy newUsername then
      LogResult.str ("New user is now called \"" ++ jsStr newUsername ++ "\"")
    else
      LogResult.undef))

/-- Handler for `emailSet`. -/
def emailSetHandler : Handler where
  fn := fun state payload event =>
    let isOwnUser := state.userId = some event.userId
    some { state with
      users := jsSet state.users event.userId
        (some { (jsGet state.users event.userId).getD {} with
                email := payload.email, emailHash := payload.emailHash })
      presetEmail := if isOwnUser then payload.email else state.presetEmail }
  log := some (LogObj.fnLog (fun _ _ oldState _ event =>
    LogResult.str (rawUsername (jsGet oldState.users event.userId) ++ " set his/her email address")))

/-- Handler for `avatarSet`. -/
def avatarSetHandler : Handler where
  fn := fun state payload event =>
    let isOwnUser := state.userId = some event.userId
    some { state with
      users := jsSet state.users event.userId
        (some { (jsGet state.users event.userId).getD {} with avatar := payload.avatar })
      presetAvatar := if isOwnUser then payload.avatar else state.presetAvatar }
  log := some (LogObj.fnLog (fun _ _ oldState _ event =>
    LogResult.str (usernameOr (jsGet oldState.users event.userId) "New user"
      ++ " set his/her avatar")))

/-- Handler for `excludedFromEstimations`. -/
def excludedFromEstimationsHandler : Handler where
  fn := fun state _ event =>
    some { state with
      users := jsSet state.users event.userId
        (some { (jsGet state.users event.userId).getD {} with excluded := some true }) }
  log := some (LogObj.fnLog (fun username _ _ _ _ =>
    LogResult.str (username ++ " is now excluded from estimations")))

/-- Handler for `includedInEstimations`. -/
def includedInEstimationsHandler : Handler where
  fn := fun state _ event =>
    some { state with
      users := jsSet state.users event.userId
        (some { (jsGet state.users event.userId).getD {} with excluded := some false }) }
  log := some (LogObj.fnLog (fun username _ _ _ _ =>
    LogResult.str (username ++ " is no longer excluded from estimations")))

/-- Handler for `storyEstimateGiven`: records the estimate; deliberately no
log descriptor. -/
def storyEstimateGivenHandler : Handler where
  fn := fun state payload event =>
    some { state with
      estimations := jsSet state.estimations (jsKey payload.storyId)
        (some (jsSet ((jsGet state.estimations (jsKey payload.storyId)).getD [])
          event.userId payload.value)) }
  log := none

/-- Handler for `consensusAchieved`: applause on, consensus stored on the
story. -/
def consensusAchievedHandler : Handler where
  fn := fun state payload _ =>
    some { state with
      applause := some true
      stories := jsSet state.stories (jsKey payload.storyId)
        (some { (jsGet state.stories (jsKey payload.storyId)).getD {} with
                consensus := payload.value }) }
  log := some (LogObj.fnLog (fun _ payload oldState newState _ =>
    let matchingCardConfig := getCardConfigForValue oldState.cardConfig
      (((jsGet newState.stories (jsKey payload.storyId)).getD {}).consensus)
    LogResult.str ("Consensus achieved for story \""
      ++ jsStr (((jsGet newState.stories (jsKey payload.storyId)).getD {}).title)
      ++ "\": "
      ++ (match matchingCardConfig with
          | some c => c.label
          | none => "-"))))

/-- Handler for `storyEstimateCleared`: removes the subject's estimate;
deliberately no log descriptor. -/
def storyEstimateClearedHandler : Handler where
  fn := fun state payload event =>
    some { state with
      estimations := jsSet state.estimations (jsKey payload.storyId)
        (some (jsDelete ((jsGet state.estimations (jsKey payload.storyId)).getD [])
          event.userId)) }
  log := none

/-- Handler for `revealed`. -/
def revealedHandler : Handler where
  fn := fun state payload _ =>
    some { state with
      stories := jsSet state.stories (jsKey payload.storyId)
        (some { (jsGet state.stories (jsKey payload.storyId)).getD {} with revealed := some true }) }
  log := some (LogObj.fnLog (fun username payload _ newState _ =>
    if boolTruthy payload.manually then
      LogResult.str (username ++ " manually revealed estimates for story \""
        ++ jsStr (((jsGet newState.stories (jsKey payload.storyId)).getD {}).title) ++ "\"")
    else
      LogResult.str ("Estimates were automatically revealed for story \""
        ++ jsStr (((jsGet newState.stories (jsKey payload.storyId)).getD {}).title) ++ "\"")))

/-- Handler for `newEstimationRoundStarted`: clears `revealed` and
`consensus` on the story, binds the story's estimation entry to
`undefined` via the spread `{...state.estimations, [storyId]: undefined}`,
clears the applause. -/
def newEstimationRoundStartedHandler : Handler where
  fn := fun state payload _ =>
    some { state with
      applause := some false
      stories := jsSet state.stories (jsKey payload.storyId)
        (some { (jsGet state.stories (jsKey payload.storyId)).getD {} with
                revealed := some false, consensus := none })
      estimations := jsSet state.estimations (jsKey payload.storyId) none }
  log := some (LogObj.fnLog (fun username payload _ newState _ =>
    LogResult.str (username ++ " started a new estimation round for story \""
      ++ jsStr (((jsGet newState.stories (jsKey payload.storyId)).getD {}).title) ++ "\"")))

/-- Handler for `cardConfigSet`. -/
def cardConfigSetHandler : Handler where
  fn := fun state payload _ => some { state with cardConfig := payload.cardConfig }
  log := some (LogObj.fnLog (fun username _ _ _ _ =>
    LogResult.str (username ++ " set new custom card configuration for this room")))

/-- Handler for `autoRevealOn`. -/
def autoRevealOnHandler : Handler where
  fn := fun state _ _ => some { state with autoReveal := some true }
  log := some (LogObj.fnLog (fun username _ _ _ _ =>
    LogResult.str (username ++ " enabled auto reveal for this room")))

/-- Handler for `autoRevealOff`. -/
def autoRevealOffHandler : Handler where
  fn := fun state _ _ => some { state with autoReveal := some false }
  log := some (LogObj.fnLog (fun username _ _ _ _ =>
    LogResult.str (username ++ " disabled auto reveal for this room")))

/-- Handler for `passwordSet`. -/
def passwordSetHandler : Handler where
  fn := fun state _ _ => some { state with passwordProtected := some true }
  log := some (LogObj.fnLog (fun username _ _ _ _ =>
    LogResult.str (username ++ " set a password for this room")))

/-- Handler for `passwordCleared`. -/
def passwordClearedHandler : Handler where
  fn := fun state _ _ => some { state with passwordProtected := some false }
  log := some (LogObj.fnLog (fun username _ _ _ _ =>
    LogResult.str (username ++ " removed password protection for this room")))

/-- Handler for `tokenIssued`: stores the token; deliberately no log
descriptor. -/
def tokenIssuedHandler : Handler where
  fn := fun state payload _ => some { state with userToken := payload.token }
  log := none

/-- Handler for `commandRejected` (generic): sets `unseenError` and logs a
structured error entry (the `log.error` diagnostic is an external side
effect). -/
def commandRejectedHandler : Handler where
  fn := fun state _ _ => some { state with unseenError := some true }
  log := some (LogObj.fnLog (fun _ payload _ _ _ =>
    LogResult.obj
      ("Command \"" ++ jsStr (payload.command.map CommandInfo.name)
        ++ "\" was not successful. \n " ++ jsStr payload.reason)
      true))

/-- The dispatch table `eventActionHandlers`, keyed by the
`EVENT_ACTION_TYPES` action-type constants. -/
def eventActionHandlers (t : String) : Option Handler :=
  if t = "ROOM_CREATED" then some roomCreatedHandler
  else if t = "JOINED_ROOM" then some joinedRoomHandler
  else if t = "LEFT_ROOM" then some leftRoomHandler
  else if t = "KICKED" then some kickedHandler
  else if t = "CONNECTION_LOST" then some connectionLostHandler
  else if t = "COMMAND_REJECTED" then some commandRejectedHandler
  else if t = "STORY_ADDED" then some storyAddedHandler
  else if t = "STORY_SELECTED" then some storySelectedHandler
  else if t = "IMPORT_FAILED" then some importFailedHandler
  else if t = "USERNAME_SET" then some usernameSetHandler
  else if t = "EMAIL_SET" then some emailSetHandler
  else if t = "AVATAR_SET" then some avatarSetHandler
  else if t = "STORY_ESTIMATE_GIVEN" then some storyEstimateGivenHandler
  else if t = "CONSENSUS_ACHIEVED" then some consensusAchievedHandler
  else if t = "STORY_ESTIMATE_CLEARED" then some storyEstimateClearedHandler
  else if t = "REVEALED" then some revealedHandler
  else if t = "NEW_ESTIMATION_ROUND_STARTED" then some newEstimationRoundStartedHandler
  else if t = "EXCLUDED_FROM_ESTM" then some excludedFromEstimationsHandler
  else if t = "INCLUDED_IN_ESTM" then some includedInEstimationsHandler
  else if t = "STORY_CHANGED" then some storyChangedHandler
  else if t = "STORY_DELETED" then some storyDeletedHandler
  else if t = "STORY_TRASHED" then some storyTrashedHandler
  else if t = "STORY_RESTORED" then some storyRestoredHandler
  else if t = "CARD_CONFIG_SET" then some cardConfigSetHandler
  else if t = "AUTO_REVEAL_ON" then some autoRevealOnHandler
  else if t = "AUTO_REVEAL_OFF" then some autoRevealOffHandler
  else if t = "PASSWORD_SET" then some passwordSetHandler
  else if t = "PASSWORD_CLEARED" then some passwordClearedHandler
  else none

/-- `isFailedJoinRoom(event)`: the event signals a rejected `joinRoom`
command.  (The payload object itself always exists per the transport
contract, so the `event.payload &&` truthiness test is always true.) -/
def isFailedJoinRoom (event : Event) : Bool :=
  event.name == "commandRejected" &&
    (match event.payload.command with
     | some c => c.name == "joinRoom"
     | none => false)

/-- `event.payload.reason` as read by the failed-join special case (a
missing reason, which would throw in JS, is excluded by the transport
contract; modelled as the empty string, which matches no branch). -/
def reasonStr (e : Event) : String := (e.payload.reason).getD ""

/-- The rejected-join reason indicates the username-format validation
failure (`reason.includes('validation Error') &&
reason.includes('/username')`). -/
def isValidationUsernameFailure (e : Event) : Bool :=
  strIncludes (reasonStr e) "validation Error" && strIncludes (reasonStr e) "/username"

/-- The first early return of the reducer fires: rejected join with a
username-validation reason. -/
def failedJoinValidation (e : Event) : Bool :=
  isFailedJoinRoom e && isValidationUsernameFailure e

/-- The second early return of the reducer fires: rejected join whose
reason does not match the validation test but includes `Not Authorized`. -/
def failedJoinAuth (e : Event) : Bool :=
  isFailedJoinRoom e && !isValidationUsernameFailure e
    && strIncludes (reasonStr e) "Not Authorized"

/-- The room-adoption step (`if (!state.roomId && event.name ===
'joinedRoom') state.roomId = event.roomId`), which in JS assigns into the
*input* state object. -/
def adoptRoom (state : RoomState) (e : Event) : RoomState :=
  if strTruthy state.roomId = false ∧ e.name = "joinedRoom" then
    { state with roomId := some e.roomId }
  else state

/-- The dispatch step of the reducer once a handler matched: run the
transition function, fall back to the unchanged state on a falsy result
(`matchingHandler.fn(state, event.payload, event) || state`), then compose
the action log. -/
def applyHandler (h : Handler) (state : RoomState) (event : Event)
    (tstamp logId : String) : RoomState :=
  let modifiedState := (h.fn state event.payload event).getD state
  updateActionLog h.log state modifiedState event tstamp logId

/-- `eventReducer(state, action)`.  Control flow of the source: the
failed-join special cases (which return early), then room adoption, then
the cross-room scope guard (which returns the — possibly adopted — state
unchanged), then dispatch-table lookup (unknown types return the state
unchanged), then transition and log composition.  `tstamp`/`logId` stand
for the impure `formatTime(Date.now())` / `uuid()` inputs of a fresh log
entry. -/
def eventReducer (state : RoomState) (action : Action) (tstamp logId : String) : RoomState :=
  let event := action.event
  if failedJoinValidation event then
    { state with presetUsername := some "" }
  else if failedJoinAuth event then
    { state with authorizationFailed := event.payload.command.map CommandInfo.roomId }
  else
    let state1 := adoptRoom state event
    if state1.roomId ≠ some event.roomId then state1
    else
      match eventActionHandlers action.type with
      | none => state1
      | some h => applyHandler h state1 event tstamp logId

/-- The value of the *input* state object after a call of the reducer.  The
reducer's handlers and `updateActionLog` only build fresh objects by
spreading, never assigning into the input; the single assignment into the
input object in the whole reducer is the room-adoption line
`state.roomId = event.roomId`, which is reached exactly when neither
failed-join early return fired.  This definition records that mutation. -/
def eventReducerInputAfter (state : RoomState) (action : Action) : RoomState :=
  let event := action.event
  if failedJoinValidation event then state
  else if failedJoinAuth event then state
  else adoptRoom state event

/-! ## Concrete inputs used by counterexamples and witnesses -/

/-- A state awaiting join resolution (pending command `c1`) inside room
`r1`. -/
def cexC1State : RoomState := { roomId := some "r1", pendingJoinCommandId := some "c1" }

/-- A `joinedRoom` event for room `r1` whose correlation id `c2` does not
match the pending `c1`. -/
def cexC1Action : Action :=
  { type := "JOINED_ROOM",
    event := { name := "joinedRoom", roomId := "r1", userId := "u2",
               correlationId := some "c2",
               payload := { users := [{ id := some "u2" }] } } }

/-- A state with no room joined yet and a pending join command `c1`. -/
def witC1State : RoomState := { pendingJoinCommandId := some "c1" }

/-- A `joinedRoom` event whose correlation id matches the pending `c1`. -/
def witC1Action : Action :=
  { type := "JOINED_ROOM",
    event := { name := "joinedRoom", roomId := "r1", userId := "u1",
               correlationId := some "c1",
               payload := { selectedStory := some "s1",
                            users := [{ id := some "u1", username := some "Ann" }],
                            stories := [{ id := "s1", title := some "T" }] } } }

/-- A state with room id `r1` set. -/
def cexC2State : RoomState := { roomId := some "r1" }

/-- A rejected `joinRoom` command (authorization failure) carried by an
event whose room id `r2` differs from the local `r1`. -/
def cexC2Action : Action :=
  { type := "COMMAND_REJECTED",
    event := { name := "commandRejected", roomId := "r2", userId := "u1",
               payload := { reason := some "Not Authorized",
                            command := some { name := "joinRoom", roomId := "r2" } } } }

/-- A state with room id `a` set. -/
def witC2State : RoomState := { roomId := some "a" }

/-- An ordinary event addressed to a different room `b`. -/
def witC2Action : Action :=
  { type := "STORY_ADDED",
    event := { name := "storyAdded", roomId := "b", userId := "u1" } }

/-- A joined state whose local user is `u1`. -/
def cexC3State : RoomState :=
  { roomId := some "r1", userId := some "u1",
    users := [("u1", some { id := some "u1", username := some "A" })] }

/-- The local user `u1` leaves the room. -/
def cexC3Action : Action :=
  { type := "LEFT_ROOM",
    event := { name := "leftRoom", roomId := "r1", userId := "u1" } }

/-- A state with a revealed, estimated story `s1` and stored estimates for
it. -/
def cexC4State : RoomState :=
  { roomId := some "r1",
    stories := [("s1", some { id := some "s1", title := some "T1",
                              revealed := some true, consensus := some 5 })],
    estimations := [("s1", some [("u1", some 5)])] }

/-- A new estimation round for story `s1`. -/
def cexC4Action : Action :=
  { type := "NEW_ESTIMATION_ROUND_STARTED",
    event := { name := "newEstimationRoundStarted", roomId := "r1", userId := "u1",
               payload := { storyId := some "s1" } } }

/-- A state with room id `r1` set and an empty action log. -/
def cexC5State : RoomState := { roomId := some "r1" }

/-- A `roomCreated` event for the local room. -/
def cexC5Action : Action :=
  { type := "ROOM_CREATED",
    event := { name := "roomCreated", roomId := "r1", userId := "u1",
               payload := { id := some "r1" } } }

/-- A joined state. -/
def witC6State : RoomState := { roomId := some "r1" }

/-- A `storyEstimateGiven` event for the local room. -/
def witC6Action : Action :=
  { type := "STORY_ESTIMATE_GIVEN",
    event := { name := "storyEstimateGiven", roomId := "r1", userId := "u1",
               payload := { storyId := some "s1", value := some 3 } } }

/-- An arbitrary state. -/
def witC7State : RoomState := { roomId := some "r9" }

/-- A rejected `joinRoom` command for password-protected room `r1`. -/
def witC7Action : Action :=
  { type := "COMMAND_REJECTED",
    event := { name := "commandRejected", roomId := "r9", userId := "u1",
               payload := { reason := some "Not Authorized",
                            command := some { name := "joinRoom", roomId := "r1" } } } }

/-- A state with no room id (the room-adoption precondition). -/
def cexC8State : RoomState := {}

/-- A `joinedRoom` event for room `r1`, triggering room adoption. -/
def cexC8Action : Action :=
  { type := "JOINED_ROOM",
    event := { name := "joinedRoom", roomId := "r1", userId := "u1",
               correlationId := some "c1" } }

/-- A state with room id `r1` set. -/
def cexC9State : RoomState := { roomId := some "r1" }

/-- An action whose type matches no dispatch-table entry but whose event is
a rejected `joinRoom` command for the local room. -/
def cexC9Action : Action :=
  { type := "SOME_UNKNOWN_TYPE",
    event := { name := "commandRejected", roomId := "r1", userId := "u1",
               payload := { reason := some "Not Authorized",
                            command := some { name := "joinRoom", roomId := "r1" } } } }

/-- A state with room id `r1` set. -/
def witC9State : RoomState := { roomId := some "r1" }

/-- An in-scope event under an action type matching no table entry. -/
def witC9Action : Action :=
  { type := "BOGUS_EVENT_TYPE",
    event := { name := "storyAdded", roomId := "r1", userId := "u1" } }

/-- A handler whose transition function returns a falsy value. -/
def witC10Handler : Handler := { fn := fun _ _ _ => none, log := none }

/-- An arbitrary state. -/
def witC10State : RoomState := { roomId := some "r1" }

/-- An arbitrary event. -/
def witC10Event : Event := { name := "someEvent", roomId := "r1", userId := "u1" }

/-! ## Auxiliary lemmas about the embedding -/

theorem lookup_jsSet {V : Type} (m : Strmap V) (k : String) (v : Option V) :
    List.lookup k (jsSet m k v) = some v := by
  induction m with
  | nil => simp [jsSet, List.lookup]
  | cons p t ih =>
    by_cases hp : p.1 = k
    · simp [jsSet, hp, List.lookup]
    · have hk : (k == p.1) = false := by simp [Ne.symm hp]
      simp [jsSet, if_neg hp, List.lookup, hk, ih]

theorem jsGet_jsSet {V : Type} (m : Strmap V) (k : String) (v : Option V) :
    jsGet (jsSet m k v) k = v := by
  simp [jsGet, lookup_jsSet]

theorem jsHasKey_jsSet {V : Type} (m : Strmap V) (k : String) (v : Option V) :
    jsHasKey (jsSet m k v) k = true := by
  simp [jsHasKey, lookup_jsSet]

theorem strAppend_ne_of_left (a b : String) (h : a ≠ "") : a ++ b ≠ "" := by
  intro hab
  apply h
  cases a with
  | mk la =>
    cases b with
    | mk lb =>
      simp only [String.ext_iff] at hab ⊢
      simp only [String.data_append] at hab
      simp at hab
      simp [hab.1]

theorem strAppend_ne_of_right (a b : String) (h : b ≠ "") : a ++ b ≠ "" := by
  intro hab
  apply h
  cases a with
  | mk la =>
    cases b with
    | mk lb =>
      simp only [String.ext_iff] at hab ⊢
      simp only [String.data_append] at hab
      simp at hab
      simp [hab.2]

theorem appendLog_cases (m : RoomState) (res : LogResult) (t l : String) :
    appendLog m res t l = m ∨
      ∃ item, appendLog m res t l = { m with actionLog := item :: m.actionLog } := by
  cases res with
  | undef => exact Or.inl rfl
  | str s =>
    by_cases hs : s = ""
    · exact Or.inl (by simp [appendLog, hs])
    · exact Or.inr ⟨⟨t, l, s, none⟩, by simp [appendLog, hs]⟩
  | obj msg e => exact Or.inr ⟨⟨t, l, msg, some e⟩, rfl⟩

theorem appendLog_str (m : RoomState) (s t l : String) (hs : s ≠ "") :
    appendLog m (LogResult.str s) t l = { m with actionLog := ⟨t, l, s, none⟩ :: m.actionLog } := by
  simp [appendLog, hs]

theorem updateActionLog_cases (lo : Option LogObj) (oldState m : RoomState) (e : Event)
    (t l : String) :
    updateActionLog lo oldState m e t l = m ∨
      ∃ item, updateActionLog lo oldState m e t l = { m with actionLog := item :: m.actionLog } := by
  cases lo with
  | none => exact Or.inl rfl
  | some lo => exact appendLog_cases ..

theorem setRoomId_self (s : RoomState) (r : Option String) (h : s.roomId = r) :
    { s with roomId := r } = s := by
  cases s
  simp_all

theorem adoptRoom_self (state : RoomState) (e : Event) (h : state.roomId = some e.roomId) :
    adoptRoom state e = state := by
  unfold adoptRoom
  split
  · exact setRoomId_self state (some e.roomId) h
  · rfl

theorem adoptRoom_eq_of (state : RoomState) (e : Event)
    (hname : e.name = "joinedRoom")
    (hroom : state.roomId = none ∨ state.roomId = some e.roomId) :
    adoptRoom state e = { state with roomId := some e.roomId } := by
  unfold adoptRoom
  split
  · rfl
  · case _ hcond =>
    rcases hroom with h | h
    · exact absurd ⟨by simp [strTruthy, h], hname⟩ hcond
    · exact (setRoomId_self state (some e.roomId) h).symm

theorem adoptRoom_roomId (state : RoomState) (e : Event)
    (hroom : state.roomId = some e.roomId ∨
      (strTruthy state.roomId = false ∧ e.name = "joinedRoom")) :
    (adoptRoom state e).roomId = some e.roomId := by
  unfold adoptRoom
  split
  · rfl
  · case _ hcond =>
    rcases hroom with h | h
    · exact h
    · exact absurd h hcond

theorem failedJoinValidation_false (e : Event) (h : isFailedJoinRoom e = false) :
    failedJoinValidation e = false := by
  simp [failedJoinValidation, h]

theorem failedJoinAuth_false (e : Event) (h : isFailedJoinRoom e = false) :
    failedJoinAuth e = false := by
  simp [failedJoinAuth, h]

/-- When the event is no rejected join and its room is in scope (or the
room-adoption step fires), the reducer reaches the dispatch step. -/
theorem reducer_dispatch (state : RoomState) (action : Action) (t l : String) (h : Handler)
    (hnf : isFailedJoinRoom action.event = false)
    (hroom : state.roomId = some action.event.roomId ∨
      (strTruthy state.roomId = false ∧ action.event.name = "joinedRoom"))
    (hh : eventActionHandlers action.type = some h) :
    eventReducer state action t l =
      applyHandler h (adoptRoom state action.event) action.event t l := by
  have hv := failedJoinValidation_false action.event hnf
  have ha := failedJoinAuth_false action.event hnf
  have hr := adoptRoom_roomId state action.event hroom
  simp [eventReducer, hv, ha, hr, hh]

/-- The cross-room scope guard: an out-of-scope event (that is not
special-cased earlier and does not trigger adoption) is dropped. -/
theorem reducer_drop (state : RoomState) (action : Action) (t l : String)
    (hv : failedJoinValidation action.event = false)
    (ha : failedJoinAuth action.event = false)
    (hadopt : adoptRoom state action.event = state)
    (hmis : state.roomId ≠ some action.event.roomId) :
    eventReducer state action t l = state := by
  simp [eventReducer, hv, ha, hadopt, hmis]

/-- An in-scope event whose action type matches no table entry leaves the
state unchanged. -/
theorem reducer_nohandler (state : RoomState) (action : Action) (t l : String)
    (hnf : isFailedJoinRoom action.event = false)
    (hroom : state.roomId = some action.event.roomId)
    (hnone : eventActionHandlers action.type = none) :
    eventReducer state action t l = state := by
  have hv := failedJoinValidation_false action.event hnf
  have ha := failedJoinAuth_false action.event hnf
  have hadopt := adoptRoom_self state action.event hroom
  simp [eventReducer, hv, ha, hadopt, hroom, hnone]

/-- The own-join branch of the `joinedRoom` handler: with a truthy pending
join command id equal to the event's correlation id, the dispatch step
produces exactly the server snapshot (plus some action log). -/
theorem joinedRoom_own (s : RoomState) (e : Event) (t l : String) (c : String)
    (hpend : s.pendingJoinCommandId = some c) (hc : c ≠ "")
    (hcorr : e.correlationId = some c) :
    ∃ logs, applyHandler joinedRoomHandler s e t l
      = { roomId := some e.roomId, userId := some e.userId,
          users := indexUsers e.payload.users, stories := indexStories e.payload.stories,
          estimations := indexEstimations e.payload.stories,
          selectedStory := e.payload.selectedStory, highlightedStory := e.payload.selectedStory,
          cardConfig := e.payload.cardConfig, autoReveal := e.payload.autoReveal,
          passwordProtected := some (boolTruthy e.payload.passwordProtected),
          applause := s.applause, actionLog := logs,
          pendingJoinCommandId := none, authorizationFailed := none,
          unseenError := s.unseenError, userToken := s.userToken,
          presetUsername := s.presetUsername, presetEmail := s.presetEmail,
          presetAvatar := s.presetAvatar } := by
  have hcond : strTruthy s.pendingJoinCommandId = true ∧
      s.pendingJoinCommandId = e.correlationId := by
    constructor
    · rw [hpend]
      simp [strTruthy]
      exact hc
    · rw [hpend, hcorr]
  have hm : applyHandler joinedRoomHandler s e t l
      = updateActionLog joinedRoomHandler.log s
          { s with
            roomId := some e.roomId
            userId := some e.userId
            selectedStory := e.payload.selectedStory
            highlightedStory := e.payload.selectedStory
            users := indexUsers e.payload.users
            stories := indexStories e.payload.stories
            estimations := indexEstimations e.payload.stories
            pendingJoinCommandId := none
            authorizationFailed := none
            cardConfig := e.payload.cardConfig
            autoReveal := e.payload.autoReveal
            passwordProtected := some (boolTruthy e.payload.passwordProtected) } e t l := by
    show updateActionLog joinedRoomHandler.log s
      ((if strTruthy s.pendingJoinCommandId ∧ s.pendingJoinCommandId = e.correlationId
        then some { s with
          roomId := some e.roomId
          userId := some e.userId
          selectedStory := e.payload.selectedStory
          highlightedStory := e.payload.selectedStory
          users := indexUsers e.payload.users
          stories := indexStories e.payload.stories
          estimations := indexEstimations e.payload.stories
          pendingJoinCommandId := none
          authorizationFailed := none
          cardConfig := e.payload.cardConfig
          autoReveal := e.payload.autoReveal
          passwordProtected := some (boolTruthy e.payload.passwordProtected) }
        else some { s with users := indexUsers e.payload.users }).getD s) e t l = _
    rw [if_pos hcond]
    rfl
  rw [hm]
  rcases updateActionLog_cases joinedRoomHandler.log s _ e t l with hcase | ⟨item, hcase⟩ <;>
    exact ⟨_, by rw [hcase]⟩

/-- The someone-else branch of the `joinedRoom` handler: with a
non-matching correlation id, the dispatch step replaces the users mapping
and prepends one log entry, touching nothing else. -/
theorem joinedRoom_other (s : RoomState) (e : Event) (t l : String) (c : String)
    (hpend : s.pendingJoinCommandId = some c)
    (hcorr : e.correlationId ≠ some c) :
    ∃ item, applyHandler joinedRoomHandler s e t l
      = { s with users := indexUsers e.payload.users,
                 actionLog := item :: s.actionLog } := by
  have hcond : ¬ (strTruthy s.pendingJoinCommandId = true ∧
      s.pendingJoinCommandId = e.correlationId) := by
    rintro ⟨-, h2⟩
    rw [hpend] at h2
    exact hcorr h2.symm
  have hm : applyHandler joinedRoomHandler s e t l
      = updateActionLog joinedRoomHandler.log s
          { s with users := indexUsers e.payload.users } e t l := by
    show updateActionLog joinedRoomHandler.log s
      ((if strTruthy s.pendingJoinCommandId ∧ s.pendingJoinCommandId = e.correlationId
        then some { s with
          roomId := some e.roomId
          userId := some e.userId
          selectedStory := e.payload.selectedStory
          highlightedStory := e.payload.selectedStory
          users := indexUsers e.payload.users
          stories := indexStories e.payload.stories
          estimations := indexEstimations e.payload.stories
          pendingJoinCommandId := none
          authorizationFailed := none
          cardConfig := e.payload.cardConfig
          autoReveal := e.payload.autoReveal
          passwordProtected := some (boolTruthy e.payload.passwordProtected) }
        else some { s with users := indexUsers e.payload.users }).getD s) e t l = _
    rw [if_neg hcond]
    rfl
  rw [hm]
  by_cases hu : strTruthy s.userId = false
  · refine ⟨⟨t, l, "You joined room \"" ++ jsStr s.roomId ++ "\"", none⟩, ?_⟩
    show appendLog { s with users := indexUsers e.payload.users }
      (if strTruthy s.userId = false
       then LogResult.str ("You joined room \"" ++ jsStr s.roomId ++ "\"")
       else LogResult.str (usernameOr (jsGet (indexUsers e.payload.users) e.userId) "New user"
         ++ " joined")) t l = _
    rw [if_pos hu]
    exact appendLog_str _ _ _ _ (strAppend_ne_of_left _ _ (strAppend_ne_of_left _ _ (by decide)))
  · refine ⟨⟨t, l,
      usernameOr (jsGet (indexUsers e.payload.users) e.userId) "New user" ++ " joined", none⟩, ?_⟩
    show appendLog { s with users := indexUsers e.payload.users }
      (if strTruthy s.userId = false
       then LogResult.str ("You joined room \"" ++ jsStr s.roomId ++ "\"")
       else LogResult.str (usernameOr (jsGet (indexUsers e.payload.users) e.userId) "New user"
         ++ " joined")) t l = _
    rw [if_neg hu]
    exact appendLog_str _ _ _ _ (strAppend_ne_of_right _ _ (by decide))

/-! ## Claim C1 -/

/-- Claim C1, counterexample to the claim as stated: with pending join
command id `c1` and a `joinedRoom` event whose correlation id `c2` does
not match, the claim asserts that only the `users` mapping changes; in
fact the reducer also prepends an action-log entry. -/
theorem C1_counterexample :
    (eventReducer cexC1State cexC1Action "T" "L").actionLog ≠ cexC1State.actionLog := by
  decide

/-- Claim C1 (amended): for a state with pending join command id `c`
(a nonempty id) receiving a `joinedRoom` event (in scope, or before a room
id is known), if the event's correlation id equals `c` the reducer adopts
the event's room and user id and the full server snapshot (indexed users,
stories and estimations, selected/highlighted story, card config, auto
reveal, password flag) and clears the pending/authorization markers; if
the correlation id does not match (or is absent), the users mapping is
replaced by the indexed payload users, one log entry is prepended to the
action log, and every other state field is unchanged. -/
theorem C1_joinedRoom_amended (state : RoomState) (action : Action) (tstamp logId : String)
    (c : String)
    (hpend : state.pendingJoinCommandId = some c) (hc : c ≠ "")
    (hty : action.type = "JOINED_ROOM") (hname : action.event.name = "joinedRoom")
    (hroom : state.roomId = none ∨ state.roomId = some action.event.roomId) :
    (action.event.correlationId = some c →
      (eventReducer state action tstamp logId).roomId = some action.event.roomId ∧
      (eventReducer state action tstamp logId).userId = some action.event.userId ∧
      (eventReducer state action tstamp logId).selectedStory = action.event.payload.selectedStory ∧
      (eventReducer state action tstamp logId).highlightedStory
        = action.event.payload.selectedStory ∧
      (eventReducer state action tstamp logId).users = indexUsers action.event.payload.users ∧
      (eventReducer state action tstamp logId).stories
        = indexStories action.event.payload.stories ∧
      (eventReducer state action tstamp logId).estimations
        = indexEstimations action.event.payload.stories ∧
      (eventReducer state action tstamp logId).cardConfig = action.event.payload.cardConfig ∧
      (eventReducer state action tstamp logId).autoReveal = action.event.payload.autoReveal ∧
      (eventReducer state action tstamp logId).passwordProtected
        = some (boolTruthy action.event.payload.passwordProtected) ∧
      (eventReducer state action tstamp logId).pendingJoinCommandId = none ∧
      (eventReducer state action tstamp logId).authorizationFailed = none) ∧
    (action.event.correlationId ≠ some c → state.roomId = some action.event.roomId →
      (eventReducer state action tstamp logId).users = indexUsers action.event.payload.users ∧
      (∃ item, (eventReducer state action tstamp logId).actionLog = item :: state.actionLog) ∧
      (eventReducer state action tstamp logId).roomId = state.roomId ∧
      (eventReducer state action tstamp logId).userId = state.userId ∧
      (eventReducer state action tstamp logId).stories = state.stories ∧
      (eventReducer state action tstamp logId).estimations = state.estimations ∧
      (eventReducer state action tstamp logId).selectedStory = state.selectedStory ∧
      (eventReducer state action tstamp logId).highlightedStory = state.highlightedStory ∧
      (eventReducer state action tstamp logId).cardConfig = state.cardConfig ∧
      (eventReducer state action tstamp logId).autoReveal = state.autoReveal ∧
      (eventReducer state action tstamp logId).passwordProtected = state.passwordProtected ∧
      (eventReducer state action tstamp logId).applause = state.applause ∧
      (eventReducer state action tstamp logId).pendingJoinCommandId
        = state.pendingJoinCommandId ∧
      (eventReducer state action tstamp logId).authorizationFailed
        = state.authorizationFailed ∧
      (eventReducer state action tstamp logId).unseenError = state.unseenError ∧
      (eventReducer state action tstamp logId).userToken = state.userToken ∧
      (eventReducer state action tstamp logId).presetUsername = state.presetUsername ∧
      (eventReducer state action tstamp logId).presetEmail = state.presetEmail ∧
      (eventReducer state action tstamp logId).presetAvatar = state.presetAvatar) := by
  have hnf : isFailedJoinRoom action.event = false := by
    unfold isFailedJoinRoom; rw [hname]; rfl
  have hh : eventActionHandlers action.type = some joinedRoomHandler := by
    rw [hty]; rfl
  have hor : state.roomId = some action.event.roomId ∨
      (strTruthy state.roomId = false ∧ action.event.name = "joinedRoom") := by
    rcases hroom with h | h
    · exact Or.inr ⟨by rw [h]; rfl, hname⟩
    · exact Or.inl h
  rw [reducer_dispatch state action tstamp logId _ hnf hor hh,
      adoptRoom_eq_of state action.event hname hroom]
  constructor
  · intro hcorr
    obtain ⟨logs, hres⟩ :=
      joinedRoom_own { state with roomId := some action.event.roomId } action.event
        tstamp logId c hpend hc hcorr
    rw [hres]
    exact ⟨rfl, rfl, rfl, rfl, rfl, rfl, rfl, rfl, rfl, rfl, rfl, rfl⟩
  · intro hcorr hmatch
    rw [setRoomId_self state (some action.event.roomId) hmatch]
    obtain ⟨item, hres⟩ :=
      joinedRoom_other state action.event tstamp logId c hpend hcorr
    rw [hres]
    exact ⟨rfl, ⟨item, rfl⟩, rfl, rfl, rfl, rfl, rfl, rfl, rfl, rfl, rfl, rfl, rfl, rfl, rfl,
      rfl, rfl, rfl, rfl⟩

/-- Claim C1, witness: a concrete own join (matching correlation id `c1`)
adopts room `r1` and user `u1`. -/
theorem C1_witness :
    (eventReducer witC1State witC1Action "T" "L").roomId = some "r1" ∧
    (eventReducer witC1State witC1Action "T" "L").userId = some "u1" := by
  have h := C1_joinedRoom_amended witC1State witC1Action "T" "L" "c1"
    rfl (by decide) rfl rfl (Or.inl rfl)
  exact ⟨(h.1 rfl).1, (h.1 rfl).2.1⟩

/-! ## Claim C2 -/

/-- Claim C2, counterexample to the claim as stated: a state with room id
`r1`, an event with room id `r2 ≠ r1` that is not the room-adoption case,
yet the reducer returns a changed state — the event is a rejected
`joinRoom` command, which the session guard special-cases *before* the
cross-room scope check. -/
theorem C2_counterexample :
    eventReducer cexC2State cexC2Action "T" "L" ≠ cexC2State := by decide

/-- Claim C2 (amended): for any state with `roomId = R` (a nonempty id)
and any event with a different room id — excluding the room-adoption case
and excluding rejected `joinRoom` commands whose reason matches the
username-validation or the authorization test, which the session guard
special-cases before the scope check — the reducer returns the input state
unchanged (the source returns the very same object), for every action type
including unhandled ones. -/
theorem C2_scope_guard_amended (state : RoomState) (action : Action) (tstamp logId : String)
    (R : String) (hR : state.roomId = some R) (hRne : R ≠ "")
    (hmis : action.event.roomId ≠ R)
    (hv : failedJoinValidation action.event = false)
    (ha : failedJoinAuth action.event = false) :
    eventReducer state action tstamp logId = state := by
  have hadopt : adoptRoom state action.event = state := by
    unfold adoptRoom
    rw [if_neg]
    rintro ⟨h1, -⟩
    rw [hR] at h1
    simp [strTruthy] at h1
    exact hRne h1
  apply reducer_drop state action tstamp logId hv ha hadopt
  rw [hR]
  simp
  exact fun h => hmis h.symm

/-- Claim C2, witness: a concrete out-of-scope `storyAdded` event is
dropped unchanged. -/
theorem C2_witness : eventReducer witC2State witC2Action "T" "L" = witC2State :=
  C2_scope_guard_amended witC2State witC2Action "T" "L" "a"
    rfl (by decide) (by decide) (by decide) (by decide)

/-! ## Claim C3 -/

/-- Claim C3, counterexample to the claim as stated: when the local user
leaves, the result is *not* equal to a fresh initial state — the reducer
appends a departure log entry on top of the reset state. -/
theorem C3_counterexample :
    eventReducer cexC3State cexC3Action "T" "L" ≠ initialState := by decide

/-- Claim C3 (amended): if the local `userId` equals the subject id of a
`leftRoom` event (the event's `userId`) or of a `kicked` event (the
payload's `userId`, not the event actor's id), the reducer's result equals
a fresh initial state in every field except the action log, which holds
exactly one new entry, regardless of the prior state's content. -/
theorem C3_leave_kick_reset_amended (state : RoomState) (action : Action) (tstamp logId : String)
    (hroom : state.roomId = some action.event.roomId) :
    ((action.type = "LEFT_ROOM" ∧ action.event.name = "leftRoom" ∧
        state.userId = some action.event.userId) →
      ∃ item, eventReducer state action tstamp logId
        = { initialState with actionLog := [item] }) ∧
    ((action.type = "KICKED" ∧ action.event.name = "kicked" ∧
        action.event.payload.userId = state.userId) →
      ∃ item, eventReducer state action tstamp logId
        = { initialState with actionLog := [item] }) := by
  constructor
  · rintro ⟨hty, hname, hself⟩
    have hnf : isFailedJoinRoom action.event = false := by
      unfold isFailedJoinRoom; rw [hname]; rfl
    have hh : eventActionHandlers action.type = some leftRoomHandler := by
      rw [hty]; rfl
    rw [reducer_dispatch state action tstamp logId _ hnf (Or.inl hroom) hh,
        adoptRoom_self _ _ hroom]
    have hm : applyHandler leftRoomHandler state action.event tstamp logId
        = updateActionLog leftRoomHandler.log state
            ((if state.userId = some action.event.userId then some initialState
              else some { state with users := jsDelete state.users action.event.userId }).getD
              state)
            action.event tstamp logId := rfl
    rw [hm, if_pos hself]
    have hmsg : (usernameOr (jsGet state.users action.event.userId) "New user"
        ++ " left the room") ≠ "" :=
      strAppend_ne_of_right _ _ (by decide)
    refine ⟨⟨tstamp, logId,
      usernameOr (jsGet state.users action.event.userId) "New user" ++ " left the room",
      none⟩, ?_⟩
    show appendLog initialState
      (LogResult.str (usernameOr (jsGet state.users action.event.userId) "New user"
        ++ " left the room")) tstamp logId = _
    exact appendLog_str _ _ _ _ hmsg
  · rintro ⟨hty, hname, hself⟩
    have hnf : isFailedJoinRoom action.event = false := by
      unfold isFailedJoinRoom; rw [hname]; rfl
    have hh : eventActionHandlers action.type = some kickedHandler := by
      rw [hty]; rfl
    rw [reducer_dispatch state action tstamp logId _ hnf (Or.inl hroom) hh,
        adoptRoom_self _ _ hroom]
    have hm : applyHandler kickedHandler state action.event tstamp logId
        = updateActionLog kickedHandler.log state
            ((if action.event.payload.userId = state.userId then some initialState
              else some { state with
                users := jsDelete state.users (jsKey action.event.payload.userId) }).getD state)
            action.event tstamp logId := rfl
    rw [hm, if_pos hself]
    have hmsg : (usernameOr (jsGet state.users (jsKey action.event.payload.userId)) "New user"
        ++ " was kicked from the room by "
        ++ rawUsername (jsGet state.users action.event.userId)) ≠ "" :=
      strAppend_ne_of_left _ _ (strAppend_ne_of_right _ _ (by decide))
    refine ⟨⟨tstamp, logId,
      usernameOr (jsGet state.users (jsKey action.event.payload.userId)) "New user"
        ++ " was kicked from the room by "
        ++ rawUsername (jsGet state.users action.event.userId), none⟩, ?_⟩
    show appendLog initialState
      (LogResult.str (usernameOr (jsGet state.users (jsKey action.event.payload.userId))
          "New user"
        ++ " was kicked from the room by "
        ++ rawUsername (jsGet state.users action.event.userId))) tstamp logId = _
    exact appendLog_str _ _ _ _ hmsg

/-- Claim C3, witness: the local user `u1` leaving a concrete room yields
the initial state plus exactly one log entry. -/
theorem C3_witness :
    ∃ item, eventReducer cexC3State cexC3Action "T" "L"
      = { initialState with actionLog := [item] } :=
  (C3_leave_kick_reset_amended cexC3State cexC3Action "T" "L" rfl).1 ⟨rfl, rfl, rfl⟩

/-! ## Claim C4 -/

/-- Claim C4, counterexample to the claim as stated: after
`newEstimationRoundStarted` for story `s1` the key `s1` is still present
in the estimations mapping (bound to `undefined` by the spread
`{...state.estimations, [storyId]: undefined}`), contradicting "no entry
for S in the estimations mapping". -/
theorem C4_counterexample :
    jsHasKey (eventReducer cexC4State cexC4Action "T" "L").estimations "s1" = true := by
  decide

/-- Claim C4 (amended): after `newEstimationRoundStarted` for story `S`
(in scope), `stories[S].revealed = false`, `stories[S].consensus` is
absent, and reading `estimations[S]` yields no value (every stored
estimate for `S` is dropped) — although the key `S` itself remains present
in the mapping, bound to `undefined`. -/
theorem C4_new_round_amended (state : RoomState) (action : Action) (tstamp logId : String)
    (S : String)
    (hty : action.type = "NEW_ESTIMATION_ROUND_STARTED")
    (hname : action.event.name = "newEstimationRoundStarted")
    (hS : action.event.payload.storyId = some S)
    (hroom : state.roomId = some action.event.roomId) :
    (∃ st, jsGet (eventReducer state action tstamp logId).stories S = some st ∧
      st.revealed = some false ∧ st.consensus = none) ∧
    jsGet (eventReducer state action tstamp logId).estimations S = none ∧
    jsHasKey (eventReducer state action tstamp logId).estimations S = true := by
  have hnf : isFailedJoinRoom action.event = false := by
    unfold isFailedJoinRoom; rw [hname]; rfl
  have hh : eventActionHandlers action.type = some newEstimationRoundStartedHandler := by
    rw [hty]; rfl
  rw [reducer_dispatch state action tstamp logId _ hnf (Or.inl hroom) hh,
      adoptRoom_self _ _ hroom]
  have hm : applyHandler newEstimationRoundStartedHandler state action.event tstamp logId
      = updateActionLog newEstimationRoundStartedHandler.log state
          { state with
            applause := some false
            stories := jsSet state.stories (jsKey action.event.payload.storyId)
              (some { (jsGet state.stories (jsKey action.event.payload.storyId)).getD {} with
                      revealed := some false, consensus := none })
            estimations := jsSet state.estimations (jsKey action.event.payload.storyId) none }
          action.event tstamp logId := rfl
  rw [hm]
  rcases updateActionLog_cases newEstimationRoundStartedHandler.log state _
      action.event tstamp logId with hcase | ⟨item, hcase⟩ <;>
  · rw [hcase, hS]
    simp only [jsKey, jsStr]
    exact ⟨⟨_, jsGet_jsSet _ _ _, rfl, rfl⟩, jsGet_jsSet _ _ _, jsHasKey_jsSet _ _ _⟩

/-- Claim C4, witness: the concrete round restart for `s1`. -/
theorem C4_witness :
    (∃ st, jsGet (eventReducer cexC4State cexC4Action "T" "L").stories "s1" = some st ∧
      st.revealed = some false ∧ st.consensus = none) ∧
    jsGet (eventReducer cexC4State cexC4Action "T" "L").estimations "s1" = none ∧
    jsHasKey (eventReducer cexC4State cexC4Action "T" "L").estimations "s1" = true :=
  C4_new_round_amended cexC4State cexC4Action "T" "L" "s1" rfl rfl rfl rfl

/-! ## Claim C5 -/

/-- Claim C5, counterexample to the claim as stated: applying `roomCreated`
changes the state — a `Room "r1" created` entry is prepended to the action
log. -/
theorem C5_counterexample :
    eventReducer cexC5State cexC5Action "T" "L" ≠ cexC5State := by decide

/-- Claim C5 (amended): applying a `roomCreated` or an `importFailed` event
(with matching room id) changes no field of the state except the action
log, to which exactly one log entry is prepended. -/
theorem C5_noop_log_amended (state : RoomState) (action : Action) (tstamp logId : String)
    (hkind : (action.type = "ROOM_CREATED" ∧ action.event.name = "roomCreated") ∨
      (action.type = "IMPORT_FAILED" ∧ action.event.name = "importFailed"))
    (hroom : state.roomId = some action.event.roomId) :
    ∃ item, eventReducer state action tstamp logId
      = { state with actionLog := item :: state.actionLog } := by
  rcases hkind with ⟨hty, hname⟩ | ⟨hty, hname⟩
  · have hnf : isFailedJoinRoom action.event = false := by
      unfold isFailedJoinRoom; rw [hname]; rfl
    have hh : eventActionHandlers action.type = some roomCreatedHandler := by
      rw [hty]; rfl
    rw [reducer_dispatch state action tstamp logId _ hnf (Or.inl hroom) hh,
        adoptRoom_self _ _ hroom]
    have hmsg : ("Room \"" ++ jsStr action.event.payload.id ++ "\" created") ≠ "" :=
      strAppend_ne_of_left _ _ (strAppend_ne_of_left _ _ (by decide))
    refine ⟨⟨tstamp, logId, "Room \"" ++ jsStr action.event.payload.id ++ "\" created",
      none⟩, ?_⟩
    show appendLog state
      (LogResult.str ("Room \"" ++ jsStr action.event.payload.id ++ "\" created"))
      tstamp logId = _
    exact appendLog_str _ _ _ _ hmsg
  · have hnf : isFailedJoinRoom action.event = false := by
      unfold isFailedJoinRoom; rw [hname]; rfl
    have hh : eventActionHandlers action.type = some importFailedHandler := by
      rw [hty]; rfl
    rw [reducer_dispatch state action tstamp logId _ hnf (Or.inl hroom) hh,
        adoptRoom_self _ _ hroom]
    have hmsg : ("CSV import failed. " ++ jsStr action.event.payload.message) ≠ "" :=
      strAppend_ne_of_left _ _ (by decide)
    refine ⟨⟨tstamp, logId, "CSV import failed. " ++ jsStr action.event.payload.message,
      none⟩, ?_⟩
    show appendLog state
      (LogResult.str ("CSV import failed. " ++ jsStr action.event.payload.message))
      tstamp logId = _
    exact appendLog_str _ _ _ _ hmsg

/-- Claim C5, witness: the concrete `roomCreated` event leaves every field
unchanged except the action log, which gains one entry. -/
theorem C5_witness :
    ∃ item, eventReducer cexC5State cexC5Action "T" "L"
      = { cexC5State with actionLog := item :: cexC5State.actionLog } :=
  C5_noop_log_amended cexC5State cexC5Action "T" "L" (Or.inl ⟨rfl, rfl⟩) rfl

/-! ## Claim C6 -/

/-- Claim C6 (confirmed): `storyEstimateGiven` and `storyEstimateCleared`
events (in scope) never change the action log — their table entries carry
no log descriptor. -/
theorem C6_log_suppression (state : RoomState) (action : Action) (tstamp logId : String)
    (hkind : (action.type = "STORY_ESTIMATE_GIVEN" ∧
        action.event.name = "storyEstimateGiven") ∨
      (action.type = "STORY_ESTIMATE_CLEARED" ∧
        action.event.name = "storyEstimateCleared"))
    (hroom : state.roomId = some action.event.roomId) :
    (eventReducer state action tstamp logId).actionLog = state.actionLog := by
  rcases hkind with ⟨hty, hname⟩ | ⟨hty, hname⟩
  · have hnf : isFailedJoinRoom action.event = false := by
      unfold isFailedJoinRoom; rw [hname]; rfl
    have hh : eventActionHandlers action.type = some storyEstimateGivenHandler := by
      rw [hty]; rfl
    rw [reducer_dispatch state action tstamp logId _ hnf (Or.inl hroom) hh,
        adoptRoom_self _ _ hroom]
    rfl
  · have hnf : isFailedJoinRoom action.event = false := by
      unfold isFailedJoinRoom; rw [hname]; rfl
    have hh : eventActionHandlers action.type = some storyEstimateClearedHandler := by
      rw [hty]; rfl
    rw [reducer_dispatch state action tstamp logId _ hnf (Or.inl hroom) hh,
        adoptRoom_self _ _ hroom]
    rfl

/-- Claim C6, witness: a concrete estimate submission leaves the action log
untouched. -/
theorem C6_witness :
    (eventReducer witC6State witC6Action "T" "L").actionLog = witC6State.actionLog :=
  C6_log_suppression witC6State witC6Action "T" "L" (Or.inl ⟨rfl, rfl⟩) rfl

/-! ## Claim C7 -/

/-- Claim C7 (confirmed): a `commandRejected` event whose rejected command
is `joinRoom` with a reason the reducer classifies as an authorization
failure (it contains `Not Authorized` and does not match the
username-validation test checked first) makes the reducer return the input
state with only `authorizationFailed` set to the rejected command's room
id; processing stops there — in particular no dispatch-table handler runs,
whatever the action type, so `unseenError` and the action log stay
unchanged. -/
theorem C7_auth_rejection (state : RoomState) (action : Action) (tstamp logId : String)
    (cmd : CommandInfo)
    (hname : action.event.name = "commandRejected")
    (hcmd : action.event.payload.command = some cmd)
    (hjoin : cmd.name = "joinRoom")
    (hval : isValidationUsernameFailure action.event = false)
    (hauth : strIncludes (reasonStr action.event) "Not Authorized" = true) :
    eventReducer state action tstamp logId
      = { state with authorizationFailed := some cmd.roomId } := by
  have hf : isFailedJoinRoom action.event = true := by
    unfold isFailedJoinRoom
    rw [hname, hcmd]
    simp [hjoin]
  have hv : failedJoinValidation action.event = false := by
    simp [failedJoinValidation, hval]
  have ha : failedJoinAuth action.event = true := by
    simp [failedJoinAuth, hf, hval, hauth]
  simp [eventReducer, hv, ha, hcmd]

/-- Claim C7, witness: a concrete rejected join against password-protected
room `r1` records `authorizationFailed = "r1"` and changes nothing else. -/
theorem C7_witness :
    eventReducer witC7State witC7Action "T" "L"
      = { witC7State with authorizationFailed := some "r1" } :=
  C7_auth_rejection witC7State witC7Action "T" "L" { name := "joinRoom", roomId := "r1" }
    rfl rfl rfl (by decide) (by decide)

/-! ## Claim C8 -/

/-- Claim C8, counterexample to the claim as stated: in the room-adoption
case (no local room id, `joinedRoom` event) the reducer *does* mutate the
input state object — the adoption line assigns the event's room id into
it. -/
theorem C8_counterexample :
    eventReducerInputAfter cexC8State cexC8Action ≠ cexC8State := by decide

/-- Claim C8 (amended): the reducer never modifies the input state object —
every handler and the log composer build fresh objects by spreading —
*except* in the room-adoption case (falsy local room id and a `joinedRoom`
event), where exactly the input's `roomId` field is set to the event's
room id. -/
theorem C8_input_mutation_amended (state : RoomState) (action : Action) :
    (¬ (strTruthy state.roomId = false ∧ action.event.name = "joinedRoom") →
      eventReducerInputAfter state action = state) ∧
    ((strTruthy state.roomId = false ∧ action.event.name = "joinedRoom") →
      eventReducerInputAfter state action
        = { state with roomId := some action.event.roomId }) := by
  constructor
  · intro h
    show (if failedJoinValidation action.event = true then state
      else if failedJoinAuth action.event = true then state
      else adoptRoom state action.event) = state
    split
    · rfl
    · split
      · rfl
      · unfold adoptRoom
        rw [if_neg h]
  · intro h
    have hnf : isFailedJoinRoom action.event = false := by
      unfold isFailedJoinRoom; rw [h.2]; rfl
    have hv := failedJoinValidation_false action.event hnf
    have ha := failedJoinAuth_false action.event hnf
    simp [eventReducerInputAfter, hv, ha, adoptRoom, h]

/-- Claim C8, witness: the concrete adoption case writes `roomId = "r1"`
into the input object. -/
theorem C8_witness :
    eventReducerInputAfter cexC8State cexC8Action
      = { cexC8State with roomId := some "r1" } :=
  (C8_input_mutation_amended cexC8State cexC8Action).2 ⟨rfl, rfl⟩

/-! ## Claim C9 -/

/-- Claim C9, counterexample to the claim as stated: an action whose type
matches no dispatch-table entry, whose event room id matches the state's,
yet the reducer changes the state — the event is a rejected `joinRoom`
command, which the session guard special-cases on the event *name* before
the dispatch-table lookup on the action *type*. -/
theorem C9_counterexample :
    (eventActionHandlers cexC9Action.type).isNone = true ∧
    cexC9State.roomId = some cexC9Action.event.roomId ∧
    eventReducer cexC9State cexC9Action "T" "L" ≠ cexC9State := by
  refine ⟨rfl, rfl, by decide⟩

/-- Claim C9 (amended): for every action whose type matches no entry in the
event dispatch table, with the event's room id matching the state's and
the event not being a rejected `joinRoom` command (which the session guard
special-cases before dispatch), the reducer returns the state unchanged —
it only emits a diagnostic to the observability sink, and on this path no
partial function is invoked, so it cannot throw. -/
theorem C9_unknown_type_amended (state : RoomState) (action : Action) (tstamp logId : String)
    (hnone : eventActionHandlers action.type = none)
    (hroom : state.roomId = some action.event.roomId)
    (hnf : isFailedJoinRoom action.event = false) :
    eventReducer state action tstamp logId = state :=
  reducer_nohandler state action tstamp logId hnf hroom hnone

/-- Claim C9, witness: a concrete unknown action type is ignored. -/
theorem C9_witness : eventReducer witC9State witC9Action "T" "L" = witC9State :=
  C9_unknown_type_amended witC9State witC9Action "T" "L" rfl rfl rfl

/-! ## Claim C10 -/

/-- Claim C10 (confirmed): when a matched handler's transition function
returns a falsy value, the dispatch step (`matchingHandler.fn(...) ||
state` followed by log composition) uses the unchanged input state as the
post-transition state, so the result lacks any field change apart from a
possible new action-log entry. -/
theorem C10_falsy_handler (h : Handler) (state : RoomState) (event : Event)
    (tstamp logId : String)
    (hf : h.fn state event.payload event = none) :
    applyHandler h state event tstamp logId = state ∨
      ∃ item, applyHandler h state event tstamp logId
        = { state with actionLog := item :: state.actionLog } := by
  have heq : applyHandler h state event tstamp logId
      = updateActionLog h.log state state event tstamp logId := by
    simp only [applyHandler, hf, Option.getD_none]
  rw [heq]
  exact updateActionLog_cases ..

/-- Claim C10, witness: a concrete falsy-returning handler leaves the state
unchanged up to a possible log entry. -/
theorem C10_witness :
    applyHandler witC10Handler witC10State witC10Event "T" "L" = witC10State ∨
      ∃ item, applyHandler witC10Handler witC10State witC10Event "T" "L"
        = { witC10State with actionLog := item :: witC10State.actionLog } :=
  C10_falsy_handler witC10Handler witC10State witC10Event "T" "L" rfl

end Poinz
